import Mathlib

set_option maxRecDepth 1000000

/-!
# Verification of the `discover` peer-discovery library

Shallow embedding of the peer-verification subsystem of the `discover`
repository (package `discover`): key derivation, challenge/response framing,
HMAC computation, the responder's handlers and the UDP verifier, together
with theorems settling the frozen claims about them.

Bytes are modelled as `Nat` values below 256, byte strings as `List Nat`.
32-bit machine words are `Nat` reduced modulo `2 ^ 32` wherever Go's `uint32`
arithmetic overflows.
-/

namespace Discover

/-! ## SHA-256 / SHA-1 / HMAC

The repository calls Go's `crypto/sha256`, `crypto/sha1` and `crypto/hmac`.
These are embedded here as executable pure functions over byte lists,
following FIPS 180-4 / RFC 2104 (which those Go packages implement). -/

/-- Reduce to a 32-bit word, as Go `uint32` arithmetic does. -/
def w32 (n : Nat) : Nat := n % 4294967296

/-- 32-bit rotate right. -/
def rotr32 (n x : Nat) : Nat := w32 ((x >>> n) ||| (x <<< (32 - n)))

/-- 32-bit rotate left. -/
def rotl32 (n x : Nat) : Nat := w32 ((x <<< n) ||| (x >>> (32 - n)))

/-- Big-endian bytes of one 32-bit word. -/
def word2bytesBE (x : Nat) : List Nat :=
  [x / 16777216 % 256, x / 65536 % 256, x / 256 % 256, x % 256]

/-- Big-endian 32-bit word starting at byte offset `4*i`. -/
def wordAtBE (bs : List Nat) (i : Nat) : Nat :=
  bs.getD (4 * i) 0 * 16777216 + bs.getD (4 * i + 1) 0 * 65536 +
    bs.getD (4 * i + 2) 0 * 256 + bs.getD (4 * i + 3) 0

/-- Interpret a byte list as a list of big-endian 32-bit words. -/
def bytes2wordsBE (bs : List Nat) : List Nat :=
  (List.range (bs.length / 4)).map (wordAtBE bs)

/-- Big-endian 8-byte encoding of a length-in-bits counter. -/
def len8BE (n : Nat) : List Nat :=
  [n / 72057594037927936 % 256, n / 281474976710656 % 256,
   n / 1099511627776 % 256, n / 4294967296 % 256,
   n / 16777216 % 256, n / 65536 % 256, n / 256 % 256, n % 256]

/-- Merkle–Damgård padding shared by SHA-256 and SHA-1: append `0x80`, zero
bytes up to 56 mod 64, then the 8-byte big-endian bit length. -/
def mdPad (msg : List Nat) : List Nat :=
  msg ++ 128 :: List.replicate ((119 - msg.length % 64) % 64) 0 ++
    len8BE (8 * msg.length)

/-- SHA-256 round constants (FIPS 180-4 §4.2.2), in decimal. -/
def K256 : List Nat :=
  [1116352408, 1899447441, 3049323471, 3921009573, 961987163,
   1508970993, 2453635748, 2870763221, 3624381080, 310598401,
   607225278, 1426881987, 1925078388, 2162078206, 2614888103,
   3248222580, 3835390401, 4022224774, 264347078, 604807628,
   770255983, 1249150122, 1555081692, 1996064986, 2554220882,
   2821834349, 2952996808, 3210313671, 3336571891, 3584528711,
   113926993, 338241895, 666307205, 773529912, 1294757372,
   1396182291, 1695183700, 1986661051, 2177026350, 2456956037,
   2730485921, 2820302411, 3259730800, 3345764771, 3516065817,
   3600352804, 4094571909, 275423344, 430227734, 506948616,
   659060556, 883997877, 958139571, 1322822218, 1537002063,
   1747873779, 1955562222, 2024104815, 2227730452, 2361852424,
   2428436474, 2756734187, 3204031479, 3329325298]

/-- Working state of one SHA-256 compression. -/
structure S256 where
  a : Nat
  b : Nat
  c : Nat
  d : Nat
  e : Nat
  f : Nat
  g : Nat
  h : Nat

/-- One step of the SHA-256 message-schedule extension. -/
def sha256ExtendStep (acc : List Nat) : List Nat :=
  let n := acc.length
  let x15 := acc.getD (n - 15) 0
  let x2 := acc.getD (n - 2) 0
  let s0 := (rotr32 7 x15) ^^^ (rotr32 18 x15) ^^^ (x15 >>> 3)
  let s1 := (rotr32 17 x2) ^^^ (rotr32 19 x2) ^^^ (x2 >>> 10)
  acc ++ [w32 (acc.getD (n - 16) 0 + s0 + acc.getD (n - 7) 0 + s1)]

/-- Extend 16 schedule words to 64. -/
def sha256Schedule (ws : List Nat) : List Nat :=
  (List.range 48).foldl (fun acc _ => sha256ExtendStep acc) ws

/-- One SHA-256 round. -/
def sha256Round (st : S256) (k w : Nat) : S256 :=
  let S1 := (rotr32 6 st.e) ^^^ (rotr32 11 st.e) ^^^ (rotr32 25 st.e)
  let ch := (st.e &&& st.f) ^^^ ((st.e ^^^ 4294967295) &&& st.g)
  let temp1 := w32 (st.h + S1 + ch + k + w)
  let S0 := (rotr32 2 st.a) ^^^ (rotr32 13 st.a) ^^^ (rotr32 22 st.a)
  let maj := (st.a &&& st.b) ^^^ (st.a &&& st.c) ^^^ (st.b &&& st.c)
  let temp2 := w32 (S0 + maj)
  ⟨w32 (temp1 + temp2), st.a, st.b, st.c, w32 (st.d + temp1), st.e, st.f, st.g⟩

/-- Compress one 16-word block into the SHA-256 chaining value. -/
def sha256Block (H ws16 : List Nat) : List Nat :=
  let W := sha256Schedule ws16
  let st0 : S256 := ⟨H.getD 0 0, H.getD 1 0, H.getD 2 0, H.getD 3 0,
                     H.getD 4 0, H.getD 5 0, H.getD 6 0, H.getD 7 0⟩
  let st := (K256.zip W).foldl (fun s p => sha256Round s p.1 p.2) st0
  [w32 (H.getD 0 0 + st.a), w32 (H.getD 1 0 + st.b), w32 (H.getD 2 0 + st.c),
   w32 (H.getD 3 0 + st.d), w32 (H.getD 4 0 + st.e), w32 (H.getD 5 0 + st.f),
   w32 (H.getD 6 0 + st.g), w32 (H.getD 7 0 + st.h)]

/-- SHA-256 initial hash value, in decimal. -/
def H256init : List Nat :=
  [1779033703, 3144134277, 1013904242, 2773480762,
   1359893119, 2600822924, 528734635, 1541459225]

/-- SHA-256 of a byte list; 32 bytes of output. -/
def sha256 (msg : List Nat) : List Nat :=
  let ws := bytes2wordsBE (mdPad msg)
  let H := (List.range (ws.length / 16)).foldl
    (fun H b => sha256Block H ((ws.drop (16 * b)).take 16)) H256init
  (H.map word2bytesBE).flatten

/-- Working state of one SHA-1 compression. -/
structure S160 where
  a : Nat
  b : Nat
  c : Nat
  d : Nat
  e : Nat

/-- One step of the SHA-1 message-schedule extension. -/
def sha1ExtendStep (acc : List Nat) : List Nat :=
  let n := acc.length
  let x := acc.getD (n - 3) 0 ^^^ acc.getD (n - 8) 0 ^^^
           acc.getD (n - 14) 0 ^^^ acc.getD (n - 16) 0
  acc ++ [rotl32 1 x]

/-- The SHA-1 round function for round `t`. -/
def sha1F (t b c d : Nat) : Nat :=
  if t < 20 then (b &&& c) ||| ((b ^^^ 4294967295) &&& d)
  else if t < 40 then b ^^^ c ^^^ d
  else if t < 60 then (b &&& c) ||| (b &&& d) ||| (c &&& d)
  else b ^^^ c ^^^ d

/-- The SHA-1 round constant for round `t`, in decimal. -/
def sha1K (t : Nat) : Nat :=
  if t < 20 then 1518500249
  else if t < 40 then 1859775393
  else if t < 60 then 2400959708
  else 3395469782

/-- One SHA-1 round. -/
def sha1Round (W : List Nat) (st : S160) (t : Nat) : S160 :=
  let temp := w32 (rotl32 5 st.a + sha1F t st.b st.c st.d + st.e +
                   sha1K t + W.getD t 0)
  ⟨temp, st.a, rotl32 30 st.b, st.c, st.d⟩

/-- Compress one 16-word block into the SHA-1 chaining value. -/
def sha1Block (H ws16 : List Nat) : List Nat :=
  let W := (List.range 64).foldl (fun acc _ => sha1ExtendStep acc) ws16
  let st0 : S160 := ⟨H.getD 0 0, H.getD 1 0, H.getD 2 0, H.getD 3 0, H.getD 4 0⟩
  let st := (List.range 80).foldl (sha1Round W) st0
  [w32 (H.getD 0 0 + st.a), w32 (H.getD 1 0 + st.b), w32 (H.getD 2 0 + st.c),
   w32 (H.getD 3 0 + st.d), w32 (H.getD 4 0 + st.e)]

/-- SHA-1 initial hash value, in decimal. -/
def H160init : List Nat :=
  [1732584193, 4023233417, 2562383102, 271733878, 3285377520]

/-- Serialize a list of 32-bit words as big-endian bytes. -/
def wordsToBytes (H : List Nat) : List Nat := (H.map word2bytesBE).flatten

/-- The SHA-1 chaining value after compressing all padded blocks. -/
def sha1Chain (msg : List Nat) : List Nat :=
  let ws := bytes2wordsBE (mdPad msg)
  (List.range (ws.length / 16)).foldl
    (fun H b => sha1Block H ((ws.drop (16 * b)).take 16)) H160init

/-- SHA-1 of a byte list; 20 bytes of output. -/
def sha1 (msg : List Nat) : List Nat :=
  wordsToBytes (sha1Chain msg)

/-- HMAC-SHA256 (RFC 2104), as produced by Go's
`hmac.New(sha256.New, key)` with `mac.Write(msg); mac.Sum(nil)`. -/
def hmacSha256 (key msg : List Nat) : List Nat :=
  let k1 := if 64 < key.length then sha256 key else key
  let k := k1 ++ List.replicate (64 - k1.length) 0
  let ipad := k.map (fun b => b ^^^ 54)
  let opad := k.map (fun b => b ^^^ 92)
  sha256 (opad ++ sha256 (ipad ++ msg))

/-! ## Process-wide constants and configuration

From the package's globals file: buffer-pool sizes, the magic header, the
process dedupe identifier and the test-only self-connection switch.  The
dedupe bytes and the switch are process globals initialised once; they are
carried here in an explicit process context, and the random 20-byte nonce
drawn by `randMsg` is likewise passed in as a parameter. -/

def LEN_UDP_POOLS : Nat := 100

def LEN_UDP_BUF : Nat := 4096

def LEN_MSG : Nat := 20

def LEN_DEDUPE : Nat := 10

/-- Default verification timeout in milliseconds. -/
def DEFAULT_TIMEOUT : Nat := 300

/-- `var magicHeader = []byte("XXUU7611")` — the ASCII bytes of `XXUU7611`
(8 bytes).  This is the constant every responder filter and every
`NewChallenge` in the package reads. -/
def magicHeader : List Nat := [88, 88, 85, 85, 55, 54, 49, 49]

/-- `magicHeader = []byte("wherez")` as declared in `discover/auth.go`
(the older TCP `AuthResolver` path): the ASCII bytes of `wherez`. -/
def magicHeaderAuthGo : List Nat := [119, 104, 101, 114, 101, 122]

/-- Process-wide state read by the protocol functions: the 10-byte dedupe
identifier drawn once at `init`, and the test-only `allowSelfConnection`
switch. -/
structure ProcCtx where
  dedupe : List Nat
  allowSelfConnection : Bool
deriving DecidableEq

/-- Go's `copy(dst, src)`: overwrite the first `min |dst| |src|` elements of
`dst` with the corresponding elements of `src`. -/
def goCopy (dst src : List Nat) : List Nat :=
  let k := min dst.length src.length
  src.take k ++ dst.drop k

/-- Go's conversion `uint16(i)` from `int`: the low 16 bits. -/
def goUInt16 (i : Int) : Nat := (i % 65536).toNat

/-! ## Frames

`Challenge` (36 bytes on the wire) and `Response` (34 bytes), with the
little-endian `encoding/binary` serialization both sides use.  Fixed-width
`[n]byte` arrays are byte lists; values built by the functions below always
carry lists of the declared widths. -/

/-- The 36-byte challenge frame: 6-byte magic header, 10-byte dedupe
identifier, 20-byte random challenge nonce. -/
structure Challenge where
  MagicHeader : List Nat
  Dedupe : List Nat
  Challenge : List Nat
deriving DecidableEq

/-- The 34-byte response frame: little-endian `uint16` application port and
the 32-byte HMAC-SHA256 tag over the challenge nonce. -/
structure Response where
  Port : Nat
  MAC : List Nat
deriving DecidableEq

/-- `NewChallenge`: a fresh challenge carrying the process magic header and
dedupe identifier plus the 20 random bytes drawn from `randMsg` (passed in
as `nonce`).  Each `copy` into the zero-valued fixed array keeps Go's
truncating semantics. -/
def NewChallenge (ctx : ProcCtx) (nonce : List Nat) : Challenge :=
  { MagicHeader := goCopy (List.replicate 6 0) magicHeader
    Dedupe := goCopy (List.replicate 10 0) ctx.dedupe
    Challenge := goCopy (List.replicate 20 0) nonce }

/-- `Challenge.ToBuffer` / `binary.Write(_, binary.LittleEndian, challenge)`:
the three fixed-width fields in declaration order, no padding. -/
def ToBuffer (challenge : Challenge) : List Nat :=
  challenge.MagicHeader ++ challenge.Dedupe ++ challenge.Challenge

/-- `binary.Read(_, binary.LittleEndian, challenge)`: consume exactly 36
bytes; fewer available is a read error (`none`). -/
def readChallenge (buf : List Nat) : Option Challenge :=
  if 36 ≤ buf.length then
    some ⟨buf.take 6, (buf.drop 6).take 10, (buf.drop 16).take 20⟩
  else none

/-- Little-endian serialization of a `Response`: 2 port bytes then 32 MAC
bytes. -/
def encodeResponse (r : Response) : List Nat :=
  [r.Port % 256, r.Port / 256 % 256] ++ r.MAC

/-- `binary.Read(_, binary.LittleEndian, response)`: consume exactly 34
bytes; fewer available is a read error (`none`). -/
def readResponse (buf : List Nat) : Option Response :=
  if 34 ≤ buf.length then
    some ⟨buf.getD 0 0 + 256 * buf.getD 1 0, (buf.drop 2).take 32⟩
  else none

/-- `Challenge.VerifyResponse`: decode the 34-byte response, recompute
`HMAC-SHA256(passphrase, challenge.Challenge)` and compare with `hmac.Equal`
(the standard library's constant-time comparison, which is `false` for
slices of different length and otherwise bytewise equality — extensionally,
list equality).  Go returns `(nil, false)` on either failure and
`(response, true)` on success; that pair is `none` / `some response` here. -/
def VerifyResponse (challenge : Challenge) (responseBuffer passphrase : List Nat) :
    Option Response :=
  match readResponse responseBuffer with
  | none => none
  | some response =>
      let expectedMAC := hmacSha256 passphrase challenge.Challenge
      if response.MAC = expectedMAC then some response else none

/-- `AuthResolver.checkMAC` from `discover/auth.go`: recompute the expected
tag and compare with `hmac.Equal`. -/
def checkMAC (message messageMAC key : List Nat) : Bool :=
  messageMAC = hmacSha256 key message

/-! ## Responder (`AuthServer`) -/

/-- The responder's configuration: advertised application port (a Go `int`)
and the shared passphrase. -/
structure AuthServer where
  AppPort : Int
  Passphrase : List Nat
deriving DecidableEq

/-- `AuthServer.respondChallenge`.  NOTE: in the source the `response`
argument is received **by value**; the MAC the function copies into its
local `Response` is never seen by the caller.  This embedding returns the
final state of that local copy, and the callers below discard it exactly as
the Go callers do. -/
def respondChallenge (ctx : ProcCtx) (a : AuthServer) (challenge : Challenge)
    (response : Response) : Response :=
  if challenge.MagicHeader ≠ magicHeader then
    -- not a wherez peer: early return, the local copy is unchanged
    response
  else if ctx.allowSelfConnection = false ∧ challenge.Dedupe = ctx.dedupe then
    -- connection to self: early return, the local copy is unchanged
    response
  else
    -- copy(response.MAC[:], mac.Sum(nil)) on the 32-byte local MAC array
    { response with MAC := hmacSha256 a.Passphrase challenge.Challenge }

/-- The branch structure of `respondChallenge`: a challenge reaches the
MAC-computing tail iff its magic header equals `magicHeader` and it is not a
self-connection (unless those are allowed). -/
def challengeAccepted (ctx : ProcCtx) (challenge : Challenge) : Bool :=
  challenge.MagicHeader = magicHeader ∧
    (ctx.allowSelfConnection = true ∨ challenge.Dedupe ≠ ctx.dedupe)

/-- `AuthServer.handleTCPClient`: read a 36-byte challenge from the
connection (silently dropping short reads), build the response with the
configured port and a zero MAC array, call `respondChallenge` — whose
by-value result is discarded — and write the response.  The return value is
the bytes written back on the connection, `none` if nothing is written. -/
def handleTCPClient (ctx : ProcCtx) (a : AuthServer) (stream : List Nat) :
    Option (List Nat) :=
  match readChallenge stream with
  | none => none
  | some challenge =>
      let response : Response := { Port := goUInt16 a.AppPort, MAC := List.replicate 32 0 }
      let _ := respondChallenge ctx a challenge response
      some (encodeResponse response)

/-- `AuthServer.handleUDPClient`: identical to the TCP handler except that it
parses the pool buffer handed over by the receive loop and sends the
response as one datagram via `WriteToUDP`. -/
def handleUDPClient (ctx : ProcCtx) (a : AuthServer) (bufPool : List Nat) :
    Option (List Nat) :=
  match readChallenge bufPool with
  | none => none
  | some challenge =>
      let response : Response := { Port := goUInt16 a.AppPort, MAC := List.replicate 32 0 }
      let _ := respondChallenge ctx a challenge response
      some (encodeResponse response)

/-- The UDP receive loop around `handleUDPClient`: `ReadFromUDP` copies the
datagram (truncated to the 4096-byte pool buffer) over the buffer's previous
contents `stale`, and the handler is invoked — on the **whole** buffer —
whenever `n > 0`.  Result: the datagram sent back, if any. -/
def udpDeliver (ctx : ProcCtx) (a : AuthServer) (datagram stale : List Nat) :
    Option (List Nat) :=
  -- n = min datagram.length LEN_UDP_BUF is ReadFromUDP's byte count; the
  -- handler runs iff n > 0 and receives the whole pool buffer
  if 0 < min datagram.length LEN_UDP_BUF then
    handleUDPClient ctx a
      (datagram.take LEN_UDP_BUF ++ stale.drop (min datagram.length LEN_UDP_BUF))
  else none

/-! ## Verifier (`AuthClient.verifyUDP`) -/

/-- The package's error values (`errors.go`). -/
inductive DiscoverErr where
  | ERR_INVALID_ADDR
  | ERR_COULD_NOT_CONNECT
  | ERR_COULD_NOT_SEND
  | ERR_DID_NOT_RESPOND
  | ERR_IS_NOT_PEER
  | ERR_DID_NOT_VERIFY
deriving DecidableEq

/-- The `(*Response, error)` pair `verifyUDP` returns. -/
inductive VerifyResult where
  | ok (response : Response)
  | err (e : DiscoverErr)
deriving DecidableEq

/-- Outcomes of the verifier's I/O steps, in program order: does the address
resolve, does `DialUDP` succeed, does the challenge write succeed, and what
the single read yields (`none` = the 300 ms deadline expired or the read
errored; `some reply` = a datagram with payload `reply` arrived). -/
structure UdpEnv where
  resolveOk : Bool
  dialOk : Bool
  writeOk : Bool
  readResult : Option (List Nat)
deriving DecidableEq

/-- What `verifyUDP` hands to `udpConn.Write`: `challenge.ToBuffer()` already
serialized the challenge once, and the following
`binary.Write(challengeBuf, binary.LittleEndian, challenge)` appends the
same 36-byte encoding a second time, so the single datagram written is the
encoding twice (72 bytes). -/
def verifySentBuf (ctx : ProcCtx) (nonce : List Nat) : List Nat :=
  ToBuffer (NewChallenge ctx nonce) ++ ToBuffer (NewChallenge ctx nonce)

/-- Result of one `verifyUDP` call: the payload of the datagram written (if
the write step was reached and succeeded) and the returned value. -/
structure VerifyOutcome where
  sent : Option (List Nat)
  result : VerifyResult
deriving DecidableEq

/-- `AuthClient.verifyUDP` with its I/O outcomes supplied by `env` and the
`randMsg` nonce passed in.  Faithful to the source: the `ERR_IS_NOT_PEER`
branch guards a `binary.Write` into an in-memory `bytes.Buffer`, which
cannot fail, so it is unreachable and not modelled; the receive buffer is
`new(bytes.Buffer).Bytes()` — a zero-length slice — so the reply's bytes are
never captured and `VerifyResponse` always runs on an empty buffer. -/
def verifyUDP (ctx : ProcCtx) (passphrase : List Nat) (env : UdpEnv)
    (nonce : List Nat) : VerifyOutcome :=
  let challenge := NewChallenge ctx nonce
  let challengeBuf := verifySentBuf ctx nonce
  if env.resolveOk = false then ⟨none, .err .ERR_INVALID_ADDR⟩
  else if env.dialOk = false then ⟨none, .err .ERR_COULD_NOT_CONNECT⟩
  else if env.writeOk = false then ⟨none, .err .ERR_COULD_NOT_SEND⟩
  else
    match env.readResult with
    | none => ⟨some challengeBuf, .err .ERR_DID_NOT_RESPOND⟩
    | some _reply =>
        -- responseBuffer := new(bytes.Buffer); ReadFrom(responseBuffer.Bytes())
        -- reads into the empty backing slice: `_reply` is dropped
        let responseBuffer : List Nat := []
        match VerifyResponse challenge responseBuffer passphrase with
        | some r => ⟨some challengeBuf, .ok r⟩
        | none => ⟨some challengeBuf, .err .ERR_DID_NOT_VERIFY⟩

/-! ## Key derivation (`NewDiscoverer`) -/

/-- The infohash computed in `NewDiscoverer`: `h := SHA-256(passphrase)`,
`h2 := h[0 : sha256.Size/2]` (the first 16 bytes), infohash `:= SHA-1(h2)`. -/
def NewDiscovererInfohash (passphrase : List Nat) : List Nat :=
  sha1 ((sha256 passphrase).take 16)

/-- The §4.1 recipe in the specification's own words: the infohash is SHA-1
of the first 16 bytes of SHA-256 of the passphrase. -/
def deriveInfohashSpec (P : List Nat) : List Nat :=
  sha1 ((sha256 P).take 16)

/-! ## Control flow of `Discoverer.FindPeers`

`FindPeers` is I/O-bound; what the claims need is its control-flow skeleton:
after a successful start it enters `for { dhtService.PeersRequest(...);
time.Sleep(5 * time.Second) }`, a loop with no break, return or condition.
The skeleton is a step machine over the reachable control states. -/

/-- Configuration facts that select `FindPeers`' control path: the sign of
`appPort`, whether `ListenAndServe` succeeds, and whether `dht.NewDHTNode`
succeeds. -/
structure FPConfig where
  appPort : Int
  listenOk : Bool
  dhtOk : Bool
deriving DecidableEq

/-- Control states of `FindPeers`: function entry; the 5-second probe loop;
the function having returned to its caller (running the deferred
`close(this.DiscoveredPeers)`); and process termination via `log.Fatalf`
(which exits without running deferred calls). -/
inductive FPState where
  | entry
  | probeLoop
  | returned
  | fatalExit
deriving DecidableEq

/-- One control step of `FindPeers`.  From `entry`: advertising with a failed
listener hits `log.Fatalf`; a failed `dht.NewDHTNode` logs and returns;
otherwise control reaches the unconditional probe loop, which only steps to
itself. -/
def findPeersStep (cfg : FPConfig) : FPState → FPState
  | .entry =>
      if 0 < cfg.appPort ∧ cfg.listenOk = false then .fatalExit
      else if cfg.dhtOk = false then .returned
      else .probeLoop
  | .probeLoop => .probeLoop
  | .returned => .returned
  | .fatalExit => .fatalExit

/-- The control state of `FindPeers` after `n` steps from entry. -/
def findPeersRun (cfg : FPConfig) : Nat → FPState
  | 0 => .entry
  | n + 1 => findPeersStep cfg (findPeersRun cfg n)

/-! ## Shared lemmas -/

/-- `respondChallenge` computes the MAC into its local response copy exactly
when `challengeAccepted` holds, and leaves the copy untouched otherwise. -/
theorem respondChallenge_accepted (ctx : ProcCtx) (a : AuthServer)
    (challenge : Challenge) (response : Response) :
    respondChallenge ctx a challenge response =
      if challengeAccepted ctx challenge then
        { response with MAC := hmacSha256 a.Passphrase challenge.Challenge }
      else response := by
  obtain ⟨d, asc⟩ := ctx
  unfold respondChallenge challengeAccepted
  by_cases h1 : challenge.MagicHeader = magicHeader
  · by_cases h2 : challenge.Dedupe = d
    · cases asc <;> simp [h1, h2]
    · cases asc <;> simp [h1, h2]
  · simp [h1]

/-- Parsing a challenge consumes only the first 36 bytes: trailing bytes do
not change the result. -/
theorem readChallenge_append (datagram rest : List Nat) (h : 36 ≤ datagram.length) :
    readChallenge (datagram ++ rest) = readChallenge datagram := by
  unfold readChallenge
  have hlen : 36 ≤ (datagram ++ rest).length := by
    rw [List.length_append]
    omega
  rw [if_pos hlen, if_pos h,
    List.take_append_of_le_length (by omega),
    List.drop_append_of_le_length (by omega),
    List.drop_append_of_le_length (by omega),
    List.take_append_of_le_length (by rw [List.length_drop]; omega),
    List.take_append_of_le_length (by rw [List.length_drop]; omega)]

/-- The UDP handler's output depends only on the first 36 bytes of the pool
buffer it is given. -/
theorem handleUDPClient_append (ctx : ProcCtx) (a : AuthServer)
    (datagram rest : List Nat) (h : 36 ≤ datagram.length) :
    handleUDPClient ctx a (datagram ++ rest) = handleUDPClient ctx a datagram := by
  unfold handleUDPClient
  rw [readChallenge_append _ _ h]

/-- For a parseable datagram that fits the pool buffer, the receive loop's
delivery is the handler applied to the datagram itself: the stale tail of
the reused pool buffer is irrelevant. -/
theorem udpDeliver_parses (ctx : ProcCtx) (a : AuthServer) (datagram stale : List Nat)
    (h36 : 36 ≤ datagram.length) (hle : datagram.length ≤ LEN_UDP_BUF) :
    udpDeliver ctx a datagram stale = handleUDPClient ctx a datagram := by
  unfold udpDeliver
  rw [Nat.min_eq_left hle, if_pos (by omega), List.take_of_length_le hle,
    handleUDPClient_append _ _ _ _ h36]

/-- One SHA-1 compression yields a 5-word chaining value. -/
theorem sha1Block_length (H ws16 : List Nat) : (sha1Block H ws16).length = 5 := by
  simp [sha1Block]

/-- Folding SHA-1 compressions preserves the 5-word chaining shape. -/
theorem foldl_sha1Block_length (l : List Nat) (g : Nat → List Nat) (H : List Nat)
    (h : H.length = 5) :
    (l.foldl (fun acc b => sha1Block acc (g b)) H).length = 5 := by
  induction l generalizing H with
  | nil => simpa using h
  | cons x xs ih => exact ih _ (sha1Block_length _ _)

/-- The SHA-1 chaining value is 5 words for every message. -/
theorem sha1Chain_length (msg : List Nat) : (sha1Chain msg).length = 5 := by
  unfold sha1Chain
  exact foldl_sha1Block_length _ _ _ rfl

/-- Serializing words gives 4 bytes per word. -/
theorem wordsToBytes_length (H : List Nat) : (wordsToBytes H).length = 4 * H.length := by
  induction H with
  | nil => simp [wordsToBytes]
  | cons x xs ih =>
      simp [wordsToBytes, word2bytesBE] at ih ⊢
      omega

/-- SHA-1 output is 20 bytes for every input. -/
theorem sha1_length (msg : List Nat) : (sha1 msg).length = 20 := by
  unfold sha1
  rw [wordsToBytes_length, sha1Chain_length]

/-! ## Concrete inputs for the evaluations -/

/-- A concrete 20-byte nonce (what a `randMsg` draw may return). -/
def nonce0 : List Nat := List.replicate 20 0

/-- Verifier-side process context: dedupe bytes all 1. -/
def ctxV0 : ProcCtx := ⟨List.replicate 10 1, false⟩

/-- Responder-side process context with self-connection enabled (the
test-only switch of the claim's scenario): dedupe bytes all 2. -/
def ctxR0 : ProcCtx := ⟨List.replicate 10 2, true⟩

/-- Responder-side process context in normal operation (self-connection
disallowed). -/
def ctxR1 : ProcCtx := ⟨List.replicate 10 2, false⟩

/-- A responder configured with application port 1234 and passphrase `"a"`. -/
def srvB0 : AuthServer := ⟨1234, [97]⟩

/-- A fresh (all-zero) UDP pool buffer. -/
def zeroPool : List Nat := List.replicate LEN_UDP_BUF 0

/-- What the responder sends back for the verifier's own datagram in the
round-trip scenario of claim C1. -/
def replyB0 : Option (List Nat) :=
  udpDeliver ctxR0 srvB0 (verifySentBuf ctxV0 nonce0) zeroPool

/-- A well-formed-looking challenge datagram: the 6 header bytes a peer
actually sends (`XXUU76`), a foreign dedupe identifier, a zero nonce. -/
def datagramC2 : List Nat := magicHeader.take 6 ++ List.replicate 10 7 ++ nonce0

/-- An all-zero 36-byte datagram: wrong magic, must be dropped per the
claim. -/
def datagramZero : List Nat := List.replicate 36 0

/-- The ASCII bytes of `"wherezexample"`, the specification's concrete
key-derivation vector. -/
def wherezexample : List Nat :=
  [119, 104, 101, 114, 101, 122, 101, 120, 97, 109, 112, 108, 101]

/-! ## Claims -/

/-- Claim C1 (code bug): the claimed honest round trip fails on the code.
With shared passphrase `"a"`, responder application port 1234 and
self-connection enabled, the responder does answer the verifier's datagram
with a frame whose port field is 1234 (bytes `[210, 4]`), but the frame's
MAC field is 32 zero bytes, not `HMAC-SHA256(passphrase, challenge.nonce)`
— `respondChallenge` writes the MAC into a by-value copy of the response,
which the handler discards — and the verifier then rejects the reply:
`verifyUDP` returns `ERR_DID_NOT_VERIFY`, never an accepted `Response`. -/
theorem C1_round_trip_bug :
    replyB0 = some ([210, 4] ++ List.replicate 32 0)
    ∧ hmacSha256 [97] nonce0 ≠ List.replicate 32 0
    ∧ (verifyUDP ctxV0 [97] ⟨true, true, true, replyB0⟩ nonce0).result
        = VerifyResult.err DiscoverErr.ERR_DID_NOT_VERIFY := by
  have hreply : replyB0 = some ([210, 4] ++ List.replicate 32 0) := by
    unfold replyB0
    rw [udpDeliver_parses _ _ _ _ (by decide) (by decide)]
    decide
  refine ⟨hreply, by decide, ?_⟩
  rw [hreply]
  decide

/-- Claim C2 (code bug): the frame the responder transmits for a
36-byte challenge datagram carries the configured application port in
bytes 0-1, but its bytes 2-33 are all zero rather than
`HMAC-SHA256(passphrase, challenge.nonce)`: the MAC computed in
`respondChallenge` is lost in the by-value `response` argument.  Moreover
the claim's precondition is unsatisfiable: `challengeAccepted` is `false`
even for this frame, since the 6-byte header field can never equal the
8-byte `magicHeader` constant. -/
theorem C2_response_mac_bug :
    udpDeliver ctxR1 srvB0 datagramC2 zeroPool
        = some ([210, 4] ++ List.replicate 32 0)
    ∧ [210, 4] = [1234 % 256, 1234 / 256 % 256]
    ∧ hmacSha256 [97] nonce0 ≠ List.replicate 32 0
    ∧ challengeAccepted ctxR1 ⟨magicHeader.take 6, List.replicate 10 7, nonce0⟩ = false := by
  refine ⟨?_, by decide, by decide, by decide⟩
  rw [udpDeliver_parses _ _ _ _ (by decide) (by decide)]
  decide

/-- Claim C3 (code bug): the responder is not silent on frames that fail the
magic/dedupe filters.  An all-zero 36-byte datagram fails the magic check,
yet both the UDP and the TCP handler write a 34-byte response back: the
early returns in `respondChallenge` only skip the MAC computation inside
the callee, and the handlers transmit unconditionally after it returns.
(The filter also accepts nothing at all: even a `wherez`-headed frame is
rejected.) -/
theorem C3_silent_drop_bug :
    challengeAccepted ctxR1
        ⟨List.replicate 6 0, List.replicate 10 0, List.replicate 20 0⟩ = false
    ∧ udpDeliver ctxR1 srvB0 datagramZero zeroPool
        = some ([210, 4] ++ List.replicate 32 0)
    ∧ handleTCPClient ctxR1 srvB0 datagramZero
        = some ([210, 4] ++ List.replicate 32 0)
    ∧ challengeAccepted ctxR1 ⟨magicHeaderAuthGo, List.replicate 10 7, nonce0⟩ = false := by
  refine ⟨by decide, ?_, by decide, by decide⟩
  rw [udpDeliver_parses _ _ _ _ (by decide) (by decide)]
  decide

/-- Claim C4 (confirmed): the infohash derived in `NewDiscoverer` equals
SHA-1 of the first 16 bytes of SHA-256 of the passphrase — the
specification's §4.1 recipe — is exactly 20 bytes for every passphrase, and
is deterministic: bit-identical passphrases give bit-identical infohashes.
The final conjunct checks the concrete `"wherezexample"` vector against an
externally computed value of the published recipe. -/
theorem C4_infohash_derivation (P : List Nat) :
    NewDiscovererInfohash P = deriveInfohashSpec P
    ∧ (NewDiscovererInfohash P).length = 20
    ∧ (∀ Q, P = Q → NewDiscovererInfohash P = NewDiscovererInfohash Q)
    ∧ NewDiscovererInfohash wherezexample =
        [36, 133, 239, 175, 19, 163, 64, 35, 24, 109, 250, 194, 43, 68, 56,
         136, 77, 24, 130, 156] :=
  ⟨rfl, sha1_length _, fun _ h => by rw [h], by decide⟩

/-- Claim C5 (code bug): a challenge built by `NewChallenge` carries the
ASCII bytes of `XXUU76` (the first 6 bytes of the 8-byte constant
`XXUU7611`), not the ASCII bytes of `wherez` declared in `auth.go` and in
the wire contract; and the responder's magic filter — which compares the
6-byte header field against the full 8-byte constant — accepts no frame at
all, neither a `wherez`-headed one nor the package's own challenges. -/
theorem C5_magic_header_bug :
    (NewChallenge ctxV0 nonce0).MagicHeader = [88, 88, 85, 85, 55, 54]
    ∧ magicHeaderAuthGo = [119, 104, 101, 114, 101, 122]
    ∧ (NewChallenge ctxV0 nonce0).MagicHeader ≠ magicHeaderAuthGo
    ∧ challengeAccepted ctxR1 ⟨magicHeaderAuthGo, List.replicate 10 7, nonce0⟩ = false
    ∧ challengeAccepted ctxR1 (NewChallenge ctxV0 nonce0) = false := by
  exact ⟨by decide, by decide, by decide, by decide, by decide⟩

/-- Claim C6 (confirmed): `VerifyResponse` accepts a buffer exactly when it
decodes as the 34-byte response frame (at least 34 bytes available to
`binary.Read`) and its MAC field — bytes 2-33 — equals
`HMAC-SHA256(passphrase, challenge.nonce)`; and `checkMAC` decides exactly
that tag equality.  The comparison in the source is `hmac.Equal`, the
standard library's constant-time equality, modelled extensionally as list
equality. -/
theorem C6_verify_response_iff (ch : Challenge) (buf pass : List Nat) :
    ((VerifyResponse ch buf pass).isSome ↔
      34 ≤ buf.length ∧ (buf.drop 2).take 32 = hmacSha256 pass ch.Challenge)
    ∧ (∀ m t k, checkMAC m t k = true ↔ t = hmacSha256 k m) := by
  constructor
  · unfold VerifyResponse readResponse
    by_cases h : 34 ≤ buf.length
    · by_cases hm : (buf.drop 2).take 32 = hmacSha256 pass ch.Challenge
      · simp [h, hm]
      · simp [h, hm]
    · simp [h]
  · intro m t k
    simp [checkMAC]

/-- Claim C7 (code bug): the payload of the one datagram `verifyUDP` writes
is not the 36-byte challenge encoding: `ToBuffer` serializes the challenge
once and the following `binary.Write` appends the same encoding again, so
the payload is the 36-byte encoding concatenated with itself — 72 bytes. -/
theorem C7_double_encoding_bug :
    (verifyUDP ctxV0 [97] ⟨true, true, true, none⟩ nonce0).sent
        = some (ToBuffer (NewChallenge ctxV0 nonce0) ++ ToBuffer (NewChallenge ctxV0 nonce0))
    ∧ (ToBuffer (NewChallenge ctxV0 nonce0)).length = 36
    ∧ (verifySentBuf ctxV0 nonce0).length = 72
    ∧ (verifyUDP ctxV0 [97] ⟨true, true, true, none⟩ nonce0).sent
        ≠ some (ToBuffer (NewChallenge ctxV0 nonce0)) := by
  exact ⟨rfl, by decide, by decide, by decide⟩

/-- Claim C8 counterexample: a malformed, wrong-size reply (`[1, 2, 3]`)
does not produce `ERR_IS_NOT_PEER` as the claim states — `verifyUDP` routes
every received reply through `VerifyResponse`, whose parse failure is
reported as `ERR_DID_NOT_VERIFY`. -/
theorem C8_is_not_peer_refuted :
    (verifyUDP ctxV0 [97] ⟨true, true, true, some [1, 2, 3]⟩ nonce0).result
        = VerifyResult.err DiscoverErr.ERR_DID_NOT_VERIFY
    ∧ DiscoverErr.ERR_DID_NOT_VERIFY ≠ DiscoverErr.ERR_IS_NOT_PEER := by
  exact ⟨rfl, by decide⟩

/-- Claim C8 as amended: the verifier maps a resolution failure to
`ERR_INVALID_ADDR`, a socket-setup failure to `ERR_COULD_NOT_CONNECT`, a
challenge-write failure to `ERR_COULD_NOT_SEND`, an expired read deadline to
`ERR_DID_NOT_RESPOND`, and every received reply — malformed, wrong-size or
MAC-mismatched — to `ERR_DID_NOT_VERIFY` (`ERR_IS_NOT_PEER` only guards an
in-memory serialization that cannot fail). -/
theorem C8_error_mapping_amended (ctx : ProcCtx) (pass nonce : List Nat)
    (d w : Bool) (rr : Option (List Nat)) :
    (verifyUDP ctx pass ⟨false, d, w, rr⟩ nonce).result
        = VerifyResult.err DiscoverErr.ERR_INVALID_ADDR
    ∧ (verifyUDP ctx pass ⟨true, false, w, rr⟩ nonce).result
        = VerifyResult.err DiscoverErr.ERR_COULD_NOT_CONNECT
    ∧ (verifyUDP ctx pass ⟨true, true, false, rr⟩ nonce).result
        = VerifyResult.err DiscoverErr.ERR_COULD_NOT_SEND
    ∧ (verifyUDP ctx pass ⟨true, true, true, none⟩ nonce).result
        = VerifyResult.err DiscoverErr.ERR_DID_NOT_RESPOND
    ∧ ∀ reply, (verifyUDP ctx pass ⟨true, true, true, some reply⟩ nonce).result
        = VerifyResult.err DiscoverErr.ERR_DID_NOT_VERIFY := by
  exact ⟨rfl, rfl, rfl, rfl, fun reply => rfl⟩

/-- Claim C9 (confirmed): `verifyUDP` reads into the zero-length backing
slice of a fresh `bytes.Buffer`, so the received reply's bytes are never
captured: its outcome is the same for every reply payload as for an empty
one, and every call returns an error — no input produces a successful
non-error result. -/
theorem C9_verify_never_succeeds (ctx : ProcCtx) (pass : List Nat) (env : UdpEnv)
    (nonce : List Nat) :
    (∃ e, (verifyUDP ctx pass env nonce).result = VerifyResult.err e)
    ∧ ∀ reply,
        verifyUDP ctx pass ⟨env.resolveOk, env.dialOk, env.writeOk, some reply⟩ nonce
          = verifyUDP ctx pass ⟨env.resolveOk, env.dialOk, env.writeOk, some []⟩ nonce := by
  obtain ⟨r, d, w, rr⟩ := env
  refine ⟨?_, ?_⟩
  · cases r
    · exact ⟨_, rfl⟩
    · cases d
      · exact ⟨_, rfl⟩
      · cases w
        · exact ⟨_, rfl⟩
        · cases rr
          · exact ⟨_, rfl⟩
          · exact ⟨DiscoverErr.ERR_DID_NOT_VERIFY, rfl⟩
  · intro reply
    cases r <;> cases d <;> cases w <;> rfl

/-- Claim C10 counterexample: when `dht.NewDHTNode` fails, `FindPeers` logs
the error and returns (after running the deferred channel close), so
"`FindPeers` never returns, for every configuration" is false: the control
machine reaches `returned`. -/
theorem C10_returns_on_dht_failure :
    findPeersRun ⟨2, true, false⟩ 1 = FPState.returned
    ∧ findPeersRun ⟨2, true, false⟩ 5 = FPState.returned := by
  exact ⟨by decide, by decide⟩

/-- Claim C10 as amended: provided the DHT node is created successfully (and
the listener binds when advertising), `FindPeers` never returns — after the
first step control sits in the unconditional 5-second probe loop forever,
so the deferred close of `DiscoveredPeers` never executes and statements
after a direct call to `FindPeers` are unreachable. -/
theorem C10_never_returns_amended (cfg : FPConfig) (n : Nat)
    (hdht : cfg.dhtOk = true) (hlisten : 0 < cfg.appPort → cfg.listenOk = true) :
    findPeersRun cfg n ≠ FPState.returned
    ∧ (1 ≤ n → findPeersRun cfg n = FPState.probeLoop) := by
  have hstep : ∀ m, findPeersRun cfg (m + 1) = FPState.probeLoop := by
    intro m
    induction m with
    | zero =>
        show findPeersStep cfg (findPeersRun cfg 0) = FPState.probeLoop
        have h1 : ¬(0 < cfg.appPort ∧ cfg.listenOk = false) := by
          rintro ⟨hp, hl⟩
          rw [hlisten hp] at hl
          cases hl
        simp [findPeersRun, findPeersStep, h1, hdht]
    | succ k ih =>
        show findPeersStep cfg (findPeersRun cfg (k + 1)) = FPState.probeLoop
        rw [ih]
        rfl
  cases n with
  | zero =>
      refine ⟨?_, ?_⟩
      · simp [findPeersRun]
      · intro h
        omega
  | succ m =>
      refine ⟨?_, fun _ => hstep m⟩
      rw [hstep m]
      simp

/-- Witness for the amended C10: a concrete advertising configuration whose
listener and DHT node start successfully, at step 3. -/
theorem C10_never_returns_amended_witness :
    findPeersRun ⟨2, true, true⟩ 3 ≠ FPState.returned
    ∧ (1 ≤ 3 → findPeersRun ⟨2, true, true⟩ 3 = FPState.probeLoop) :=
  C10_never_returns_amended ⟨2, true, true⟩ 3 rfl (fun _ => rfl)

end Discover
